import Mathlib

/-!
Verification of the arcade-game templates in `game.js` (dodge variant and
collector variant) against the design specification.  Continuous quantities
(pixel positions, velocities, `Math.random()` draws, time deltas) are modelled
as rationals; grid coordinates of the collector game as integers; scores and
high scores as naturals.  Randomness is passed in explicitly: a single draw
`r : ℚ` with `0 ≤ r < 1` stands for one call of `Math.random()`, and the
collector's rejection-sampling loop receives a stream `draws : ℕ → Cell` of
candidate cells together with explicit fuel (`none` means the JS `while` loop
has not terminated within the given fuel).
-/

/-- Abstract result of loading one image asset. -/
inductive LoadResult where
  | real
  | placeholder
deriving DecidableEq

namespace Dodge

/-- `loadImage` of the dodge variant: the promise resolves with the image on
success and REJECTS with an error on failure (no fallback substitution).
The boolean argument stands for whether the browser can fetch the URL. -/
def loadImage (ok : Bool) : Except String LoadResult :=
  if ok then Except.ok LoadResult.real else Except.error "Failed to load image"

/-- `Game.init` of the dodge variant: `Promise.all` over the three image
loads; on success the game is started (`restart` is called), on any failure
the `.catch` only logs and the game never starts.  Returns whether gameplay
starts. -/
def initStarts (birdOk pipeOk bgOk : Bool) : Bool :=
  match loadImage birdOk, loadImage pipeOk, loadImage bgOk with
  | Except.ok _, Except.ok _, Except.ok _ => true
  | _, _, _ => false

/-- The player-controlled actor (`this.bird`). -/
structure Bird where
  x : ℚ
  y : ℚ
  width : ℚ
  height : ℚ
  velocity : ℚ
deriving DecidableEq

/-- One obstacle (`class Pipe`), image field omitted. -/
structure Pipe where
  x : ℚ
  gapY : ℚ
  gapHeight : ℚ
  width : ℚ
  speed : ℚ
  scored : Bool
deriving DecidableEq

/-- `Pipe.update`: move left at the pipe's own speed. -/
def Pipe.update (p : Pipe) (dt : ℚ) : Pipe :=
  { p with x := p.x - p.speed * dt }

/-- `Pipe.isColliding`: horizontal overlap and the bird sticking out of the
gap vertically. -/
def Pipe.isColliding (p : Pipe) (bird : Bird) : Bool :=
  if bird.x + bird.width > p.x ∧ bird.x < p.x + p.width then
    if bird.y < p.gapY ∨ bird.y + bird.height > p.gapY + p.gapHeight then
      true
    else
      false
  else
    false

/-- `config.pipe`. -/
structure PipeConfig where
  width : ℚ
  gapHeight : ℚ
  speed : ℚ
  spawnInterval : ℚ
deriving DecidableEq

/-- `config.difficulty`. -/
structure DifficultyConfig where
  speedIncreaseRate : ℚ
  gapDecreaseRate : ℚ
deriving DecidableEq

/-- The shared, mutable `gameConfig` object (the parts the simulation reads
and writes). -/
structure Config where
  pipe : PipeConfig
  difficulty : DifficultyConfig
deriving DecidableEq

/-- Whole simulation state of the dodge variant. -/
structure GameState where
  bird : Bird
  pipes : List Pipe
  pipeTimer : ℚ
  score : ℕ
  highScore : ℕ
  gameOver : Bool
  config : Config
  canvasWidth : ℚ
  canvasHeight : ℚ
deriving DecidableEq

/-- Physics constant `this.gravity = 1500`. -/
def gravity : ℚ := 1500

/-- Physics constant `this.jumpVelocity = -500`. -/
def jumpVelocity : ℚ := -500

/-- `Game.saveHighScore`: returns the new in-memory high score and whether
`localStorage.setItem` was executed. -/
def saveHighScore (score highScore : ℕ) : ℕ × Bool :=
  if score > highScore then (score, true) else (highScore, false)

/-- `Game.restart`: reset pipes, timer, score, game-over flag and the bird's
vertical position and velocity; the shared config is not touched. -/
def restart (s : GameState) : GameState :=
  { s with pipes := [], pipeTimer := 0, score := 0, gameOver := false,
           bird := { s.bird with y := s.canvasHeight / 2, velocity := 0 } }

/-- The gap position computed at spawn time:
`gapY = minY + Math.random() * (maxY - minY)` with `minY = gapHeight*0.5`
and `maxY = canvasHeight - gapHeight*1.5`. -/
def spawnGapY (canvasHeight gapHeight r : ℚ) : ℚ :=
  let minY := gapHeight * (1 / 2)
  let maxY := canvasHeight - gapHeight * (3 / 2)
  minY + r * (maxY - minY)

/-- The pipe pushed at spawn time (`new Pipe(...)`): placed at the right
canvas edge, unscored, with the config's current width, gap height and
speed. -/
def spawnPipe (cfg : Config) (canvasWidth canvasHeight r : ℚ) : Pipe :=
  { x := canvasWidth,
    gapY := spawnGapY canvasHeight cfg.pipe.gapHeight r,
    gapHeight := cfg.pipe.gapHeight,
    width := cfg.pipe.width,
    speed := cfg.pipe.speed,
    scored := false }

/-- The difficulty ramp applied to the shared config at every spawn:
`speed += speedIncreaseRate`, `gapHeight = max(80, gapHeight - gapDecreaseRate)`. -/
def rampConfig (cfg : Config) : Config :=
  { cfg with pipe :=
      { cfg.pipe with
          speed := cfg.pipe.speed + cfg.difficulty.speedIncreaseRate,
          gapHeight := max 80 (cfg.pipe.gapHeight - cfg.difficulty.gapDecreaseRate) } }

/-- The scoring check done for one pipe inside the `forEach`:
`if (!pipe.scored && pipe.x + pipe.width < bird.x) { score++; scored = true }`. -/
def scoreStep (birdX : ℚ) (score : ℕ) (p : Pipe) : ℕ × Pipe :=
  if p.scored = false ∧ p.x + p.width < birdX then
    (score + 1, { p with scored := true })
  else
    (score, p)

/-- Accumulated result of the `pipes.forEach` body. -/
structure PipesResult where
  pipes : List Pipe
  score : ℕ
  highScore : ℕ
  gameOver : Bool
deriving DecidableEq

/-- The `pipes.forEach` body: move each pipe, run the scoring check, then the
collision check (which sets `gameOver` and calls `saveHighScore`). -/
def processPipes (bird : Bird) (dt : ℚ) :
    List Pipe → ℕ → ℕ → Bool → PipesResult
  | [], score, highScore, gameOver => ⟨[], score, highScore, gameOver⟩
  | p :: rest, score, highScore, gameOver =>
    let p1 := Pipe.update p dt
    let sp := scoreStep bird.x score p1
    let hg : ℕ × Bool :=
      if Pipe.isColliding sp.2 bird then ((saveHighScore sp.1 highScore).1, true)
      else (highScore, gameOver)
    let r := processPipes bird dt rest sp.1 hg.1 hg.2
    ⟨sp.2 :: r.pipes, r.score, r.highScore, r.gameOver⟩

/-- `Game.update(dt)` of the dodge variant.  `r1` is the `Math.random()` draw
used for the gap position, `r2` the one used for the next spawn interval.
The background scroll offset is render-only and omitted. -/
def update (s : GameState) (dt r1 r2 : ℚ) : GameState :=
  if s.gameOver then s
  else
    let velocity := s.bird.velocity + gravity * dt
    let y := s.bird.y + velocity * dt
    let bird : Bird := { s.bird with velocity := velocity, y := y }
    if y < 0 ∨ y + bird.height > s.canvasHeight then
      { s with bird := bird, gameOver := true,
               highScore := (saveHighScore s.score s.highScore).1 }
    else
      let timer0 := s.pipeTimer - dt
      let spawn : List Pipe × ℚ × Config :=
        if timer0 ≤ 0 then
          (s.pipes ++ [spawnPipe s.config s.canvasWidth s.canvasHeight r1],
           s.config.pipe.spawnInterval * (4 / 5 + r2 * (2 / 5)),
           rampConfig s.config)
        else
          (s.pipes, timer0, s.config)
      let pr := processPipes bird dt spawn.1 s.score s.highScore s.gameOver
      { s with bird := bird,
               pipes := pr.pipes.filter (fun p => decide (p.x > -p.width)),
               pipeTimer := spawn.2.1,
               config := spawn.2.2,
               score := pr.score,
               highScore := pr.highScore,
               gameOver := pr.gameOver }

/-- One tick of a single pipe's lifetime against a stationary bird abscissa:
the pipe moves, then the scoring check runs. -/
def pipeTick (birdX dt : ℚ) (score : ℕ) (p : Pipe) : ℕ × Pipe :=
  scoreStep birdX score (Pipe.update p dt)

/-- A whole lifetime of one pipe: successive ticks with time deltas `dts`,
threading the score through. -/
def pipeLifetime (birdX : ℚ) : List ℚ → ℕ → Pipe → ℕ × Pipe
  | [], score, p => (score, p)
  | dt :: rest, score, p =>
    let sp := pipeTick birdX dt score p
    pipeLifetime birdX rest sp.1 sp.2

end Dodge

namespace Collector

/-- `loadImage` of the collector variant: resolves `null` when no src is
given, the image on success, and a 1×1 transparent placeholder on failure —
it never rejects. -/
def loadImage (srcPresent ok : Bool) : Except String (Option LoadResult) :=
  if srcPresent = false then Except.ok none
  else if ok then Except.ok (some LoadResult.real)
  else Except.ok (some LoadResult.placeholder)

/-- `Game.init` of the collector variant: awaits the three image loads inside
`try`; the catch branch (which would prevent the game from starting) is taken
only if a load rejects.  Returns whether the game loop starts. -/
def initStarts (charOk itemOk bgOk : Bool) : Bool :=
  match loadImage true charOk, loadImage true itemOk, loadImage true bgOk with
  | Except.ok _, Except.ok _, Except.ok _ => true
  | _, _, _ => false

/-- A grid cell `{x, y}`. -/
structure Cell where
  x : ℤ
  y : ℤ
deriving DecidableEq

/-- `this.gridSize`. -/
structure GridSize where
  w : ℤ
  h : ℤ
deriving DecidableEq

/-- The snake (`class Character`), drawing-related fields omitted. -/
structure Character where
  gridSize : GridSize
  segments : List Cell
  direction : Cell
  nextDirection : Cell
  lastTailPosition : Option Cell
deriving DecidableEq

/-- `Character.move`: adopt the buffered direction, compute the new head,
fail (`none`, JS `return false`) on wall contact or on coinciding with any
segment of `segments.slice(1)`, otherwise prepend the head, drop the tail and
remember the tail's old position for a later `grow`. -/
def Character.move (c : Character) : Option Character :=
  let dir := c.nextDirection
  match c.segments with
  | [] => none
  | h0 :: rest =>
    let head : Cell := ⟨h0.x + dir.x, h0.y + dir.y⟩
    if head.x < 0 ∨ head.x ≥ c.gridSize.w ∨ head.y < 0 ∨ head.y ≥ c.gridSize.h then
      none
    else if (h0 :: rest).length > 1 ∧
        ((h0 :: rest).drop 1).any (fun s => s.x == head.x && s.y == head.y) then
      none
    else
      let tailPosition := (h0 :: rest).getLast (by simp)
      some { c with direction := dir,
                    segments := (head :: h0 :: rest).dropLast,
                    lastTailPosition := some tailPosition }

/-- `Character.grow`: append a segment at the tail's pre-move position and
consume it; fall back to duplicating the current tail. -/
def Character.grow (c : Character) : Character :=
  match c.lastTailPosition with
  | some t => { c with segments := c.segments ++ [t], lastTailPosition := none }
  | none => { c with segments := c.segments ++ c.segments.getLast?.toList }

/-- The occupancy test of `spawnItem`'s rejection loop:
`segments.some(segment => segment.x === newItemX && segment.y === newItemY)`. -/
def occupied (segs : List Cell) (c : Cell) : Bool :=
  segs.any (fun s => s.x == c.x && s.y == c.y)

/-- The `while (collision)` rejection-sampling loop of `Game.spawnItem`,
with an explicit candidate stream and fuel: `draws i` is the cell produced by
the `i`-th pair of `Math.random()` calls; `none` means the loop has not
terminated within the fuel. -/
def spawnItemAux (segs : List Cell) (draws : ℕ → Cell) : ℕ → ℕ → Option Cell
  | _, 0 => none
  | i, fuel + 1 =>
    if occupied segs (draws i) then spawnItemAux segs draws (i + 1) fuel
    else some (draws i)

/-- Whole simulation state of the collector variant. -/
structure GState where
  gridSize : GridSize
  character : Character
  item : Cell
  score : ℕ
  highScore : ℕ
  gameOver : Bool
deriving DecidableEq

/-- `Game.saveHighScore` (collector variant, same code as the dodge one). -/
def saveHighScore (score highScore : ℕ) : ℕ × Bool :=
  if score > highScore then (score, true) else (highScore, false)

/-- `Game.endGame`: set the game-over flag, stop the interval timer and save
the high score. -/
def endGame (s : GState) : GState :=
  { s with gameOver := true, highScore := (saveHighScore s.score s.highScore).1 }

/-- `Game.update` of the collector variant: move the character (ending the
game on collision), then on item collection increment the score, grow and
respawn the item.  `none` means the tick does not complete because the
rejection-sampling loop in `spawnItem` exceeded its fuel. -/
def update (s : GState) (draws : ℕ → Cell) (fuel : ℕ) : Option GState :=
  match Character.move s.character with
  | none => some (endGame s)
  | some ch =>
    match ch.segments with
    | [] => some { s with character := ch }
    | head :: _ =>
      if head.x = s.item.x ∧ head.y = s.item.y then
        let ch2 := Character.grow ch
        match spawnItemAux ch2.segments draws 0 fuel with
        | none => none
        | some c => some { s with character := ch2, score := s.score + 1, item := c }
      else
        some { s with character := ch }

/-- The body of the `setInterval` callback installed by `startGameLoop`:
update and render only while the game is not over. -/
def intervalStep (s : GState) (draws : ℕ → Cell) (fuel : ℕ) : Option GState :=
  if s.gameOver then some s else update s draws fuel

end Collector

/-- A dodge-variant state frozen at game over (for evaluating the frame
property at a concrete input). -/
def c5dodgeFrozen : Dodge.GameState :=
  { bird := ⟨160, 300, 40, 40, 25⟩,
    pipes := [⟨400, 150, 200, 120, 200, true⟩],
    pipeTimer := 1,
    score := 3,
    highScore := 7,
    gameOver := true,
    config := ⟨⟨120, 200, 200, 5 / 2⟩, ⟨2, 1 / 2⟩⟩,
    canvasWidth := 800,
    canvasHeight := 600 }

/-- A collector-variant state frozen at game over. -/
def c5collFrozen : Collector.GState :=
  { gridSize := ⟨20, 20⟩,
    character := { gridSize := ⟨20, 20⟩, segments := [⟨5, 5⟩, ⟨4, 5⟩],
                   direction := ⟨1, 0⟩, nextDirection := ⟨1, 0⟩,
                   lastTailPosition := none },
    item := ⟨9, 9⟩, score := 4, highScore := 4, gameOver := true }

/-- A running dodge-variant state whose spawn timer has expired (for
evaluating the difficulty-ramp property at a concrete input). -/
def c10state : Dodge.GameState :=
  { bird := ⟨160, 100, 40, 40, 0⟩,
    pipes := [],
    pipeTimer := 0,
    score := 0,
    highScore := 0,
    gameOver := false,
    config := ⟨⟨120, 200, 200, 5 / 2⟩, ⟨2, 1 / 2⟩⟩,
    canvasWidth := 800,
    canvasHeight := 600 }

/-- Snake about to step onto the cell currently occupied only by its own
tail: head (1,0) moving down, body (0,0), (0,1), tail (1,1) on a 20×20
grid. -/
def c2snake : Collector.Character :=
  { gridSize := ⟨20, 20⟩,
    segments := [⟨1, 0⟩, ⟨0, 0⟩, ⟨0, 1⟩, ⟨1, 1⟩],
    direction := ⟨0, 1⟩,
    nextDirection := ⟨0, 1⟩,
    lastTailPosition := none }

/-- Length-1 snake at (19,10) moving right on a 20×20 grid: its next step
leaves the grid. -/
def c2wSnake : Collector.Character :=
  { gridSize := ⟨20, 20⟩,
    segments := [⟨19, 10⟩],
    direction := ⟨1, 0⟩,
    nextDirection := ⟨1, 0⟩,
    lastTailPosition := none }

/-- Constant candidate stream for the item respawn of the C3 scenario. -/
def c3draws : ℕ → Collector.Cell := fun _ => ⟨0, 0⟩

/-- The C3 scenario start state: 20×20 grid, length-1 snake with head at
(10,10) moving right, item at (11,10). -/
def c3start : Collector.GState :=
  { gridSize := ⟨20, 20⟩,
    character := { gridSize := ⟨20, 20⟩, segments := [⟨10, 10⟩],
                   direction := ⟨1, 0⟩, nextDirection := ⟨1, 0⟩,
                   lastTailPosition := none },
    item := ⟨11, 10⟩, score := 0, highScore := 0, gameOver := false }

/-- The state the code produces from `c3start` after one tick. -/
def c3afterOne : Collector.GState :=
  { gridSize := ⟨20, 20⟩,
    character := { gridSize := ⟨20, 20⟩, segments := [⟨11, 10⟩, ⟨10, 10⟩],
                   direction := ⟨1, 0⟩, nextDirection := ⟨1, 0⟩,
                   lastTailPosition := none },
    item := ⟨0, 0⟩, score := 1, highScore := 0, gameOver := false }

/-!  Helper lemmas shared by the claim theorems. -/

theorem Collector.any_cellMatch_iff (l : List Collector.Cell) (c : Collector.Cell) :
    (l.any fun s => s.x == c.x && s.y == c.y) = true ↔ c ∈ l := by
  simp only [List.any_eq_true, Bool.and_eq_true, beq_iff_eq]
  constructor
  · rintro ⟨s, hs, hx, hy⟩
    have : s = c := by cases s; cases c; simp_all
    exact this ▸ hs
  · intro hc
    exact ⟨c, hc, rfl, rfl⟩

theorem Collector.occupied_iff (segs : List Collector.Cell) (c : Collector.Cell) :
    Collector.occupied segs c = true ↔ c ∈ segs :=
  Collector.any_cellMatch_iff segs c

/-- C1 counterexample: in the dodge variant, a failed character-image load
rejects the asset join; the `.catch` only logs, `restart` is never reached
and gameplay does not start — the failure is not recovered by a fallback. -/
theorem c1_dodge_load_failure_fatal :
    Dodge.loadImage false = Except.error "Failed to load image" ∧
    Dodge.initStarts false true true = false := by
  exact ⟨rfl, rfl⟩

/-- C1 (amended): only the collector variant recovers an individual image
load failure locally, substituting a 1×1 placeholder (or `null` when no src
is given) so its loader never rejects and gameplay always starts; in the
dodge variant the loader rejects on failure and gameplay starts exactly when
all three image loads succeed. -/
theorem c1_asset_fallback_amended :
    (∀ ok : Bool, Collector.loadImage true ok =
        Except.ok (some (if ok then LoadResult.real else LoadResult.placeholder))) ∧
    (∀ srcPresent ok : Bool, ∃ v, Collector.loadImage srcPresent ok = Except.ok v) ∧
    (∀ a b c : Bool, Collector.initStarts a b c = true) ∧
    (∀ ok : Bool, Dodge.loadImage ok =
        if ok then Except.ok LoadResult.real
        else Except.error "Failed to load image") ∧
    (∀ a b c : Bool, Dodge.initStarts a b c = (a && b && c)) := by
  refine ⟨?_, ?_, ?_, ?_, ?_⟩
  · intro ok; cases ok <;> rfl
  · intro srcPresent ok; cases srcPresent <;> cases ok <;> exact ⟨_, rfl⟩
  · intro a b c; cases a <;> cases b <;> cases c <;> rfl
  · intro ok; cases ok <;> rfl
  · intro a b c; cases a <;> cases b <;> cases c <;> rfl

/-- C4: in both variants `saveHighScore` sets the high score to
`max(oldHighScore, finalScore)`, writes the store exactly when the final
score strictly exceeds the stored value, `endGame` performs this update once
at run end, and across any sequence of runs the high score never
decreases. -/
theorem c4_highscore_max :
    (∀ score high : ℕ, (Dodge.saveHighScore score high).1 = max high score ∧
        ((Dodge.saveHighScore score high).2 = true ↔ high < score)) ∧
    (∀ score high : ℕ, (Collector.saveHighScore score high).1 = max high score ∧
        ((Collector.saveHighScore score high).2 = true ↔ high < score)) ∧
    (∀ t : Collector.GState, Collector.endGame t =
        { t with gameOver := true, highScore := max t.highScore t.score }) ∧
    (∀ (runs : List ℕ) (h0 : ℕ),
        h0 ≤ runs.foldl (fun h sc => (Dodge.saveHighScore sc h).1) h0) := by
  have hstep : ∀ score high : ℕ, (Dodge.saveHighScore score high).1 = max high score := by
    intro score high
    unfold Dodge.saveHighScore
    split_ifs with h <;> simp <;> omega
  refine ⟨?_, ?_, ?_, ?_⟩
  · intro score high
    refine ⟨hstep score high, ?_⟩
    unfold Dodge.saveHighScore
    split_ifs with h <;> simp <;> omega
  · intro score high
    constructor
    · unfold Collector.saveHighScore
      split_ifs with h <;> simp <;> omega
    · unfold Collector.saveHighScore
      split_ifs with h <;> simp <;> omega
  · intro t
    unfold Collector.endGame Collector.saveHighScore
    split_ifs with h
    · simp [Nat.max_eq_right (le_of_lt h)]
    · simp [Nat.max_eq_left (not_lt.mp h)]
  · intro runs
    induction runs with
    | nil => intro h0; exact le_refl h0
    | cons a l ih =>
      intro h0
      calc h0 ≤ (Dodge.saveHighScore a h0).1 := by rw [hstep]; exact le_max_left _ _
        _ ≤ l.foldl (fun h sc => (Dodge.saveHighScore sc h).1) (Dodge.saveHighScore a h0).1 :=
          ih _

/-- C5: in both variants, once the game-over flag holds, a simulation step
leaves the entire state unchanged (the dodge `update` returns immediately,
the collector interval callback skips `update` and `render`). -/
theorem c5_gameover_frozen :
    (∀ (s : Dodge.GameState) (dt r1 r2 : ℚ), s.gameOver = true →
        Dodge.update s dt r1 r2 = s) ∧
    (∀ (t : Collector.GState) (draws : ℕ → Collector.Cell) (fuel : ℕ),
        t.gameOver = true → Collector.intervalStep t draws fuel = some t) := by
  constructor
  · intro s dt r1 r2 hg
    unfold Dodge.update
    simp [hg]
  · intro t draws fuel hg
    unfold Collector.intervalStep
    simp [hg]

/-- C5 witness: the frozen states are left unchanged by a concrete step. -/
theorem c5_gameover_frozen_witness :
    Dodge.update c5dodgeFrozen 1 0 0 = c5dodgeFrozen ∧
    Collector.intervalStep c5collFrozen (fun _ => ⟨0, 0⟩) 1 = some c5collFrozen :=
  ⟨c5_gameover_frozen.1 c5dodgeFrozen 1 0 0 rfl,
   c5_gameover_frozen.2 c5collFrozen (fun _ => ⟨0, 0⟩) 1 rfl⟩

/-- C6 counterexample: at `screenHeight = 300` (legal, the canvas tracks the
window height) and random draw `1/2`, the spawned `gapY` is `50`, violating
the claimed lower bound `100 ≤ gapY`. -/
theorem c6_gapy_counterexample :
    Dodge.spawnGapY 300 200 (1 / 2) = 50 ∧
    ¬ ((100 : ℚ) ≤ Dodge.spawnGapY 300 200 (1 / 2)) := by
  constructor <;> norm_num [Dodge.spawnGapY]

/-- C6 (amended): provided the screen is at least twice the gap height
(`screenHeight ≥ 400` for `gapHeight = 200`), every generated `gapY`
satisfies `100 ≤ gapY ≤ screenHeight - 300` for any random draw in
`[0, 1)`. -/
theorem c6_gapy_in_range (screenHeight gapHeight r : ℚ) (h0 : 0 ≤ r) (h1 : r < 1)
    (hs : 2 * gapHeight ≤ screenHeight) :
    (gapHeight * (1 / 2) ≤ Dodge.spawnGapY screenHeight gapHeight r ∧
      Dodge.spawnGapY screenHeight gapHeight r ≤ screenHeight - gapHeight * (3 / 2)) ∧
    (gapHeight = 200 →
      100 ≤ Dodge.spawnGapY screenHeight 200 r ∧
      Dodge.spawnGapY screenHeight 200 r ≤ screenHeight - 300) := by
  have hval : Dodge.spawnGapY screenHeight gapHeight r =
      gapHeight * (1 / 2) + r * (screenHeight - 2 * gapHeight) := by
    simp only [Dodge.spawnGapY]
    ring
  have hlow : gapHeight * (1 / 2) ≤ Dodge.spawnGapY screenHeight gapHeight r := by
    rw [hval]
    nlinarith [mul_nonneg h0 (by linarith : (0 : ℚ) ≤ screenHeight - 2 * gapHeight)]
  have hhigh : Dodge.spawnGapY screenHeight gapHeight r ≤
      screenHeight - gapHeight * (3 / 2) := by
    rw [hval]
    nlinarith [mul_nonneg (by linarith : (0 : ℚ) ≤ 1 - r)
      (by linarith : (0 : ℚ) ≤ screenHeight - 2 * gapHeight)]
  refine ⟨⟨hlow, hhigh⟩, ?_⟩
  intro hg
  subst hg
  constructor
  · linarith
  · linarith

/-- C6 witness: the amended bound with the un-ramped gap height 200 and a
ramped gap height 150, both at `screenHeight = 600`, draw `1/2`. -/
theorem c6_gapy_in_range_witness :
    ((150 : ℚ) * (1 / 2) ≤ Dodge.spawnGapY 600 150 (1 / 2) ∧
      Dodge.spawnGapY 600 150 (1 / 2) ≤ 600 - 150 * (3 / 2)) ∧
    (100 ≤ Dodge.spawnGapY 600 200 (1 / 2) ∧
      Dodge.spawnGapY 600 200 (1 / 2) ≤ 600 - 300) :=
  ⟨(c6_gapy_in_range 600 150 (1 / 2) (by norm_num) (by norm_num) (by norm_num)).1,
   (c6_gapy_in_range 600 200 (1 / 2) (by norm_num) (by norm_num) (by norm_num)).2 rfl⟩

/-- C8: the obstacle collision test returns `true` exactly when the bird's
horizontal span overlaps the pipe's horizontal span and the bird's vertical
span `[y, y+height]` is not contained in the gap interval
`[gapY, gapY+gapHeight]`. -/
theorem c8_collision_iff (p : Dodge.Pipe) (b : Dodge.Bird) :
    Dodge.Pipe.isColliding p b = true ↔
      ((b.x + b.width > p.x ∧ b.x < p.x + p.width) ∧
        ¬ (p.gapY ≤ b.y ∧ b.y + b.height ≤ p.gapY + p.gapHeight)) := by
  rw [not_and_or, not_le, not_le]
  unfold Dodge.Pipe.isColliding
  split_ifs with h1 h2 <;> simp_all

/-- C10: `restart` empties the pipes, zeroes score and spawn timer, recentres
the bird and zeroes its velocity, but leaves the shared config untouched;
the config is exactly what carries the difficulty ramp, which each spawn
advances by `speed += speedIncreaseRate` and
`gapHeight = max 80 (gapHeight - gapDecreaseRate)` — so every ramped value
reached in one run carries over unchanged into the next run. -/
theorem c10_restart_keeps_ramp :
    (∀ s : Dodge.GameState,
        (Dodge.restart s).config = s.config ∧
        (Dodge.restart s).pipes = [] ∧
        (Dodge.restart s).pipeTimer = 0 ∧
        (Dodge.restart s).score = 0 ∧
        (Dodge.restart s).gameOver = false ∧
        (Dodge.restart s).bird.y = s.canvasHeight / 2 ∧
        (Dodge.restart s).bird.velocity = 0) ∧
    (∀ cfg : Dodge.Config,
        (Dodge.rampConfig cfg).pipe.speed =
          cfg.pipe.speed + cfg.difficulty.speedIncreaseRate ∧
        (Dodge.rampConfig cfg).pipe.gapHeight =
          max 80 (cfg.pipe.gapHeight - cfg.difficulty.gapDecreaseRate)) ∧
    (∀ (s : Dodge.GameState) (dt r1 r2 : ℚ),
        s.gameOver = false →
        ¬ (s.bird.y + (s.bird.velocity + Dodge.gravity * dt) * dt < 0 ∨
            s.bird.y + (s.bird.velocity + Dodge.gravity * dt) * dt + s.bird.height >
              s.canvasHeight) →
        s.pipeTimer - dt ≤ 0 →
        (Dodge.update s dt r1 r2).config = Dodge.rampConfig s.config) := by
  refine ⟨?_, ?_, ?_⟩
  · intro s
    refine ⟨rfl, rfl, rfl, rfl, rfl, rfl, rfl⟩
  · intro cfg
    exact ⟨rfl, rfl⟩
  · intro s dt r1 r2 hg hb ht
    unfold Dodge.update
    simp [hg, hb, ht]

/-- C10 witness: at a concrete running state with expired spawn timer,
restart keeps the config and the update applies the ramp. -/
theorem c10_restart_keeps_ramp_witness :
    (Dodge.restart c10state).config = c10state.config ∧
    (Dodge.update c10state (1 / 100) 0 0).config = Dodge.rampConfig c10state.config :=
  ⟨(c10_restart_keeps_ramp.1 c10state).1,
   c10_restart_keeps_ramp.2.2 c10state (1 / 100) 0 0 rfl
     (by norm_num [c10state, Dodge.gravity]) (by norm_num [c10state])⟩

/-- C2 counterexample: moving the head onto the cell currently occupied only
by the tail DOES end the game — `move` fails on `c2snake` although the new
head (1,1) is inside the 20×20 grid and coincides with no non-tail
segment. -/
theorem c2_tail_cell_counterexample :
    Collector.Character.move c2snake = none ∧
    c2snake.segments.getLast? = some ⟨1, 1⟩ ∧
    ((⟨1, 1⟩ : Collector.Cell) ∉ c2snake.segments.dropLast) ∧
    (0 ≤ (1 : ℤ) ∧ 1 < c2snake.gridSize.w ∧ 0 ≤ (1 : ℤ) ∧ 1 < c2snake.gridSize.h) := by
  refine ⟨by decide, by decide, by decide, by decide⟩

/-- C2 (amended): a collector tick transitions to game over exactly when the
new head (current head plus active direction) is outside the grid or
coincides with any segment other than the current head — the tail
included. -/
theorem c2_move_gameover_iff (c : Collector.Character) (h0 : Collector.Cell)
    (rest : List Collector.Cell) (hseg : c.segments = h0 :: rest) :
    (Collector.Character.move c = none ↔
      (h0.x + c.nextDirection.x < 0 ∨ c.gridSize.w ≤ h0.x + c.nextDirection.x ∨
        h0.y + c.nextDirection.y < 0 ∨ c.gridSize.h ≤ h0.y + c.nextDirection.y ∨
        (⟨h0.x + c.nextDirection.x, h0.y + c.nextDirection.y⟩ : Collector.Cell) ∈ rest)) := by
  unfold Collector.Character.move
  rw [hseg]
  dsimp only
  split_ifs with hwall hself
  · simp only [ge_iff_le] at hwall
    simp only [true_iff]
    tauto
  · simp only [List.length_cons, Nat.lt_iff_add_one_le, List.drop_succ_cons,
      List.drop_zero] at hself
    obtain ⟨hlen, hany⟩ := hself
    have hmem := (Collector.any_cellMatch_iff rest
      ⟨h0.x + c.nextDirection.x, h0.y + c.nextDirection.y⟩).mp hany
    simp only [true_iff]
    tauto
  · simp only [ge_iff_le] at hwall
    push_neg at hwall
    constructor
    · intro habs
      exact absurd habs (by simp)
    · intro hdisj
      rcases hdisj with h | h | h | h | h
      · exact absurd h (by omega)
      · exact absurd h (by omega)
      · exact absurd h (by omega)
      · exact absurd h (by omega)
      · refine absurd ?_ hself
        refine ⟨?_, (Collector.any_cellMatch_iff rest _).mpr h⟩
        rcases rest with _ | ⟨a, t⟩
        · simp at h
        · simp

/-- C2 witness: the amended characterisation at a concrete snake whose next
step leaves the 20×20 grid. -/
theorem c2_move_gameover_iff_witness :
    (Collector.Character.move c2wSnake = none ↔
      ((19 : ℤ) + 1 < 0 ∨ (20 : ℤ) ≤ 19 + 1 ∨ (10 : ℤ) + 0 < 0 ∨ (20 : ℤ) ≤ 10 + 0 ∨
        (⟨19 + 1, 10 + 0⟩ : Collector.Cell) ∈ ([] : List Collector.Cell))) :=
  c2_move_gameover_iff c2wSnake ⟨19, 10⟩ [] rfl

/-- C3 counterexample: in the scenario (20×20 grid, length-1 snake at
(10,10) moving right, item at (11,10)) the segment count is already 2 at the
end of the collecting tick — `grow` runs inside the same `update`, not on
the following tick. -/
theorem c3_growth_same_tick_counterexample :
    (Collector.update c3start c3draws 1).map (fun t => t.character.segments.length) =
        some 2 ∧
    ¬ ((Collector.update c3start c3draws 1).map (fun t => t.character.segments.length) =
        some 1) := by
  exact ⟨by decide, by decide⟩

/-- C3 (amended): after one tick the head is (11,10) and the score is 1, and
growth is applied within that same tick — a segment is appended at the
tail's pre-move cell (10,10), making the length 2 at the end of the
collecting tick; the length is still 2 after the following tick. -/
theorem c3_collect_scenario :
    Collector.update c3start c3draws 1 = some c3afterOne ∧
    c3afterOne.character.segments = [⟨11, 10⟩, ⟨10, 10⟩] ∧
    c3afterOne.score = 1 ∧
    (Collector.update c3afterOne c3draws 1).map (fun t => t.character.segments.length) =
      some 2 := by
  refine ⟨by decide, rfl, rfl, by decide⟩

theorem Dodge.scoreStep_scored (birdX : ℚ) (score : ℕ) (p : Dodge.Pipe) :
    ((Dodge.scoreStep birdX score p).2.scored = true ↔
      p.scored = true ∨ p.x + p.width < birdX) := by
  unfold Dodge.scoreStep
  cases hs : p.scored <;> split_ifs with h <;> simp_all

theorem Dodge.scoreStep_score (birdX : ℚ) (score : ℕ) (p : Dodge.Pipe) :
    (Dodge.scoreStep birdX score p).1 =
      if p.scored = false ∧ p.x + p.width < birdX then score + 1 else score := by
  unfold Dodge.scoreStep
  split_ifs with h <;> rfl

theorem Dodge.scoreStep_balance (birdX : ℚ) (score : ℕ) (p : Dodge.Pipe) :
    (Dodge.scoreStep birdX score p).1 + (if p.scored = true then 1 else 0) =
      score + (if (Dodge.scoreStep birdX score p).2.scored = true then 1 else 0) := by
  unfold Dodge.scoreStep
  split_ifs <;> simp_all

theorem Dodge.pipeTick_balance (birdX dt : ℚ) (score : ℕ) (p : Dodge.Pipe) :
    (Dodge.pipeTick birdX dt score p).1 + (if p.scored = true then 1 else 0) =
      score + (if (Dodge.pipeTick birdX dt score p).2.scored = true then 1 else 0) :=
  Dodge.scoreStep_balance birdX score (Dodge.Pipe.update p dt)

theorem Dodge.pipeLifetime_cons (birdX dt : ℚ) (rest : List ℚ) (score : ℕ)
    (p : Dodge.Pipe) :
    Dodge.pipeLifetime birdX (dt :: rest) score p =
      Dodge.pipeLifetime birdX rest (Dodge.pipeTick birdX dt score p).1
        (Dodge.pipeTick birdX dt score p).2 := rfl

theorem Dodge.pipeLifetime_scored_mono (birdX : ℚ) (dts : List ℚ) :
    ∀ (score : ℕ) (p : Dodge.Pipe), p.scored = true →
      (Dodge.pipeLifetime birdX dts score p).2.scored = true := by
  induction dts with
  | nil => intro score p hp; exact hp
  | cons dt rest ih =>
    intro score p hp
    rw [Dodge.pipeLifetime_cons]
    apply ih
    show (Dodge.scoreStep birdX score (Dodge.Pipe.update p dt)).2.scored = true
    rw [Dodge.scoreStep_scored]
    exact Or.inl hp

theorem Dodge.pipeLifetime_balance (birdX : ℚ) (dts : List ℚ) :
    ∀ (score : ℕ) (p : Dodge.Pipe),
      (Dodge.pipeLifetime birdX dts score p).1 + (if p.scored = true then 1 else 0) =
        score + (if (Dodge.pipeLifetime birdX dts score p).2.scored = true then 1 else 0) := by
  induction dts with
  | nil => intro score p; rfl
  | cons dt rest ih =>
    intro score p
    rw [Dodge.pipeLifetime_cons]
    have h1 := ih (Dodge.pipeTick birdX dt score p).1 (Dodge.pipeTick birdX dt score p).2
    have h2 := Dodge.pipeTick_balance birdX dt score p
    split_ifs at h1 h2 ⊢ <;> omega

/-- C7: a pipe's scoring check fires exactly when the pipe is unscored and
its trailing edge `x + width` is strictly left of the bird's leading edge,
it then increments the score by exactly 1 and sets `scored`; over any whole
lifetime the total score gained from one pipe is 1 if the flag ended up
flipping and 0 otherwise — so the false→true transition happens at most
once. -/
theorem c7_scored_once (p : Dodge.Pipe) (birdX : ℚ) (score : ℕ) (dts : List ℚ) :
    ((Dodge.scoreStep birdX score p).2.scored = true ↔
        p.scored = true ∨ p.x + p.width < birdX) ∧
    ((Dodge.scoreStep birdX score p).1 =
        if p.scored = false ∧ p.x + p.width < birdX then score + 1 else score) ∧
    ((Dodge.pipeLifetime birdX dts score p).1 =
        score + (if (Dodge.pipeLifetime birdX dts score p).2.scored = true ∧
                    p.scored = false then 1 else 0)) := by
  refine ⟨Dodge.scoreStep_scored birdX score p, Dodge.scoreStep_score birdX score p, ?_⟩
  have hbal := Dodge.pipeLifetime_balance birdX dts score p
  cases hp : p.scored with
  | true =>
    have hmono := Dodge.pipeLifetime_scored_mono birdX dts score p hp
    rw [hp] at hbal
    rw [hmono] at hbal ⊢
    simp only [if_pos rfl] at hbal
    simp only [Bool.true_eq_false, and_false, if_false]
    omega
  | false =>
    rw [hp] at hbal
    simp only [Bool.false_eq_true, if_false, Nat.add_zero] at hbal
    rw [hbal]
    simp only [and_true]

theorem Collector.spawnItemAux_some (segs : List Collector.Cell)
    (draws : ℕ → Collector.Cell) :
    ∀ (fuel i : ℕ) (c : Collector.Cell),
      Collector.spawnItemAux segs draws i fuel = some c →
      Collector.occupied segs c = false := by
  intro fuel
  induction fuel with
  | zero =>
    intro i c h
    exact absurd h (by simp [Collector.spawnItemAux])
  | succ n ih =>
    intro i c h
    unfold Collector.spawnItemAux at h
    by_cases ho : Collector.occupied segs (draws i) = true
    · rw [if_pos ho] at h
      exact ih _ _ h
    · rw [if_neg ho] at h
      injection h with h'
      rw [← h']
      simpa using ho

theorem Collector.spawnItemAux_terminates (segs : List Collector.Cell)
    (draws : ℕ → Collector.Cell) :
    ∀ (fuel i : ℕ),
      (∃ j, j < fuel ∧ Collector.occupied segs (draws (i + j)) = false) →
      ∃ c, Collector.spawnItemAux segs draws i fuel = some c := by
  intro fuel
  induction fuel with
  | zero =>
    rintro i ⟨j, hj, _⟩
    omega
  | succ n ih =>
    rintro i ⟨j, hj, hfree⟩
    unfold Collector.spawnItemAux
    by_cases ho : Collector.occupied segs (draws i) = true
    · rw [if_pos ho]
      apply ih
      rcases j with _ | j'
      · rw [Nat.add_zero] at hfree
        rw [hfree] at ho
        exact absurd ho (by simp)
      · refine ⟨j', by omega, ?_⟩
        rwa [show i + 1 + j' = i + (j' + 1) by omega]
    · rw [if_neg ho]
      exact ⟨draws i, rfl⟩

theorem Collector.spawnItemAux_none (segs : List Collector.Cell)
    (draws : ℕ → Collector.Cell)
    (hocc : ∀ i, Collector.occupied segs (draws i) = true) :
    ∀ (fuel i : ℕ), Collector.spawnItemAux segs draws i fuel = none := by
  intro fuel
  induction fuel with
  | zero => intro i; rfl
  | succ n ih =>
    intro i
    unfold Collector.spawnItemAux
    rw [if_pos (hocc i)]
    exact ih _

/-- C9: the item-respawn loop only ever returns an unoccupied cell; it
terminates as soon as the random stream produces an unoccupied cell (which
the precondition "some grid cell is free" guarantees with probability 1,
the draws being uniform over the grid); and when every grid cell is occupied
by a segment — so that every in-range draw is occupied — the rejection loop
returns within no amount of fuel, i.e. it never terminates. -/
theorem c9_spawn_item (segs : List Collector.Cell) (gw gh : ℤ)
    (draws : ℕ → Collector.Cell) :
    (∀ i fuel c, Collector.spawnItemAux segs draws i fuel = some c →
        Collector.occupied segs c = false) ∧
    ((∃ k, Collector.occupied segs (draws k) = false) →
        ∃ fuel c, Collector.spawnItemAux segs draws 0 fuel = some c ∧
          Collector.occupied segs c = false) ∧
    ((∀ c : Collector.Cell, 0 ≤ c.x → c.x < gw → 0 ≤ c.y → c.y < gh →
          Collector.occupied segs c = true) →
      (∀ i, 0 ≤ (draws i).x ∧ (draws i).x < gw ∧ 0 ≤ (draws i).y ∧ (draws i).y < gh) →
      ∀ i fuel, Collector.spawnItemAux segs draws i fuel = none) := by
  refine ⟨fun i fuel c h => Collector.spawnItemAux_some segs draws fuel i c h, ?_, ?_⟩
  · rintro ⟨k, hk⟩
    obtain ⟨c, hc⟩ := Collector.spawnItemAux_terminates segs draws (k + 1) 0
      ⟨k, by omega, by simpa using hk⟩
    exact ⟨k + 1, c, hc, Collector.spawnItemAux_some segs draws (k + 1) 0 c hc⟩
  · intro hall hrange i fuel
    exact Collector.spawnItemAux_none segs draws
      (fun j => hall (draws j) (hrange j).1 (hrange j).2.1 (hrange j).2.2.1
        (hrange j).2.2.2) fuel i

/-- C9 witness: with the single segment (0,0), a stream drawing (1,1)
terminates with an unoccupied cell, while on a fully occupied 1×1 grid the
loop returns nothing for fuel 5. -/
theorem c9_spawn_item_witness :
    (∃ fuel c,
        Collector.spawnItemAux [⟨0, 0⟩] (fun _ => ⟨1, 1⟩) 0 fuel = some c ∧
        Collector.occupied [⟨0, 0⟩] c = false) ∧
    Collector.spawnItemAux [⟨0, 0⟩] (fun _ => ⟨0, 0⟩) 0 5 = none :=
  ⟨(c9_spawn_item [⟨0, 0⟩] 1 1 (fun _ => ⟨1, 1⟩)).2.1 ⟨0, by decide⟩,
   (c9_spawn_item [⟨0, 0⟩] 1 1 (fun _ => ⟨0, 0⟩)).2.2
     (fun c h1 h2 h3 h4 => by
        have hx : c.x = 0 := by omega
        have hy : c.y = 0 := by omega
        simp [Collector.occupied, hx, hy])
     (fun i => ⟨by decide, by decide, by decide, by decide⟩) 0 5⟩
